import Mathlib

/-!
Verification development for the jeonse-ratio calculator (`src/app.py`).

The four pure helper functions of the application are embedded over `ℚ`
(exact rational arithmetic in place of Python floats) and `String`:

* `build_naver_search_url` — trims the address, returns `none` when blank,
  otherwise percent-encodes it into a fixed search-URL template;
* `calc_jeonse_ratio` — `deposit / price * 100` rounded to one decimal,
  `none` when `price ≤ 0`;
* `get_risk_level` — maps a ratio (or `none`) to a `(label, hexColor)` pair;
* `make_donut_chart` — builds the declarative two-segment ring-chart record.

Python's `round(x, 1)` and `f"{x:.1f}"` use round-half-to-even, embedded
here as `roundHalfEven` / `pyRound1` / `fmt1`.  Python's `str.strip()`
removes leading and trailing whitespace, embedded as `pyStrip` (whitespace
modelled for the Basic Latin and Latin-1 range, which covers all inputs
considered here).  `urllib.parse.quote` (default `safe='/'`) is embedded
as `pyQuote`, percent-encoding the UTF-8 bytes of every character that is
not an ASCII letter, digit, `_`, `.`, `-`, `~` or `/`, with uppercase hex.
-/

/-- Whitespace characters stripped by Python `str.strip()` (Basic Latin and
Latin-1 range). -/
def isPySpace (c : Char) : Bool :=
  let n := c.toNat
  n == 32 || (9 ≤ n && n ≤ 13) || (28 ≤ n && n ≤ 31) || n == 133 || n == 160

/-- Python `s.strip()`: drop leading and trailing whitespace. -/
def pyStrip (s : String) : String :=
  String.mk (List.rdropWhile isPySpace (List.dropWhile isPySpace s.data))

/-- UTF-8 encoding of a single character, as a list of byte values. -/
def utf8Bytes (c : Char) : List Nat :=
  let n := c.toNat
  if n < 128 then [n]
  else if n < 2048 then [192 + n / 64, 128 + n % 64]
  else if n < 65536 then [224 + n / 4096, 128 + (n / 64) % 64, 128 + n % 64]
  else [240 + n / 262144, 128 + (n / 4096) % 64, 128 + (n / 64) % 64, 128 + n % 64]

/-- Uppercase hexadecimal digit for a value `< 16`. -/
def hexDigitUpper (n : Nat) : Char :=
  if n < 10 then Char.ofNat (48 + n) else Char.ofNat (55 + n)

/-- `%XX` percent-encoding of one byte, uppercase hex as in `urllib.parse.quote`. -/
def percentEncodeByte (b : Nat) : String :=
  String.mk ['%', hexDigitUpper (b / 16), hexDigitUpper (b % 16)]

/-- Characters left unencoded by `urllib.parse.quote` with its default
`safe='/'`: ASCII letters, digits, `_`, `.`, `-`, `~` and `/`. -/
def isQuoteSafe (c : Char) : Bool :=
  let n := c.toNat
  (65 ≤ n && n ≤ 90) || (97 ≤ n && n ≤ 122) || (48 ≤ n && n ≤ 57) ||
    n == 95 || n == 46 || n == 45 || n == 126 || n == 47

/-- `urllib.parse.quote(s)` with the default `safe='/'`. -/
def pyQuote (s : String) : String :=
  String.join (s.data.map (fun c =>
    if isQuoteSafe c then String.singleton c
    else String.join ((utf8Bytes c).map percentEncodeByte)))

/-- `build_naver_search_url(address)`: `address = (address or "").strip()`;
returns `None` if blank, else the fixed template with the quoted address. -/
def build_naver_search_url (address : Option String) : Option String :=
  let a := pyStrip (address.getD "")
  if a = "" then none
  else some ("https://new.land.naver.com/search?sk=" ++ pyQuote a)

/-- Round-half-to-even to the nearest integer, as Python's rounding does. -/
def roundHalfEven (q : ℚ) : ℤ :=
  let f := q.floor
  let r := q - (f : ℚ)
  if r < 1/2 then f
  else if 1/2 < r then f + 1
  else if f % 2 = 0 then f else f + 1

/-- Python `round(q, 1)`: round-half-to-even at one decimal place. -/
def pyRound1 (q : ℚ) : ℚ := (roundHalfEven (q * 10) : ℚ) / 10

/-- `calc_jeonse_ratio(jeonse_deposit, sale_price)` from `src/app.py`. -/
def calc_jeonse_ratio (jeonse_deposit sale_price : ℚ) : Option ℚ :=
  if sale_price ≤ 0 then none
  else some (pyRound1 (jeonse_deposit / sale_price * 100))

/-- `get_risk_level(ratio)` from `src/app.py`: risk label and hex color. -/
def get_risk_level (ratio : Option ℚ) : String × String :=
  match ratio with
  | none => ("정보 없음", "#7f8c8d")
  | some r =>
    if r < 60 then ("안전 영역", "#2ecc71")
    else if r < 80 then ("주의 영역", "#f1c40f")
    else ("위험 영역", "#e74c3c")

/-- Python `f"{q:.1f}"`: fixed-point formatting with one decimal place. -/
def fmt1 (q : ℚ) : String :=
  let n := roundHalfEven (q * 10)
  let sgn := if n < 0 then "-" else ""
  sgn ++ toString (n.natAbs / 10) ++ "." ++ toString (n.natAbs % 10)

/-- The center-text element of the figure (`fig.update_layout(annotations=[dict(...)])`). -/
structure GoAnnot where
  text : String
  x : ℚ
  y : ℚ
  fontSize : Nat
  fontColor : String
  showarrow : Bool
deriving DecidableEq, Repr

/-- One `go.Pie` trace: segment values, hole fraction, colors, text mode. -/
structure GoPie where
  values : List ℚ
  hole : ℚ
  colors : List String
  textinfo : String
deriving DecidableEq, Repr

/-- A `go.Figure` as configured by `make_donut_chart`. -/
structure GoFigure where
  data : List GoPie
  showlegend : Bool
  marginL : Nat
  marginR : Nat
  marginT : Nat
  marginB : Nat
  annots : List GoAnnot
deriving DecidableEq, Repr

/-- `make_donut_chart(ratio, color)` from `src/app.py`: substitutes 0 for a
`None` ratio, builds the two-segment ring with a centered text element. -/
def make_donut_chart (ratio : Option ℚ) (color : String) : GoFigure :=
  let r := ratio.getD 0
  { data := [{ values := [r, 100 - r], hole := 0.7,
               colors := [color, "#ecf0f1"], textinfo := "none" }],
    showlegend := false,
    marginL := 0, marginR := 0, marginT := 0, marginB := 0,
    annots := [{ text := fmt1 r ++ "%", x := 1/2, y := 1/2,
                 fontSize := 26, fontColor := color, showarrow := false }] }

/-- All segment values appearing in a figure, in order. -/
def segmentValues (f : GoFigure) : List ℚ :=
  (f.data.map GoPie.values).flatten

/-! ## Helper lemmas -/

theorem ratFloor_eq_intFloor (q : ℚ) : q.floor = ⌊q⌋ :=
  (Rat.floor_def' q).trans Rat.floor_def.symm

theorem roundHalfEven_nonpos {x : ℚ} (h : x < 0) : roundHalfEven x ≤ 0 := by
  have hf : ⌊x⌋ ≤ -1 := by
    have h1 : (⌊x⌋ : ℚ) ≤ x := Int.floor_le x
    have h2 : (⌊x⌋ : ℚ) < 0 := lt_of_le_of_lt h1 h
    have h3 : ⌊x⌋ < 0 := by exact_mod_cast h2
    omega
  simp only [roundHalfEven, ratFloor_eq_intFloor]
  split_ifs <;> omega

theorem pyRound1_nonpos {q : ℚ} (h : q < 0) : pyRound1 q ≤ 0 := by
  have h10 : q * 10 < 0 := by linarith
  have hn : roundHalfEven (q * 10) ≤ 0 := roundHalfEven_nonpos h10
  have hn' : ((roundHalfEven (q * 10) : ℤ) : ℚ) ≤ 0 := by exact_mod_cast hn
  exact div_nonpos_iff.mpr (Or.inr ⟨hn', by norm_num⟩)

theorem pyRound1_zero : pyRound1 0 = 0 := by with_unfolding_all rfl

theorem risk_safe {r : ℚ} (h : r < 60) :
    get_risk_level (some r) = ("안전 영역", "#2ecc71") := by
  simp [get_risk_level, h]

theorem risk_caution {r : ℚ} (h1 : 60 ≤ r) (h2 : r < 80) :
    get_risk_level (some r) = ("주의 영역", "#f1c40f") := by
  simp [get_risk_level, not_lt.mpr h1, h2]

theorem risk_danger {r : ℚ} (h : 80 ≤ r) :
    get_risk_level (some r) = ("위험 영역", "#e74c3c") := by
  have h60 : (60 : ℚ) ≤ r := by linarith
  simp [get_risk_level, not_lt.mpr h60, not_lt.mpr h]

theorem calc_of_pos {p : ℚ} (hp : 0 < p) (d : ℚ) :
    calc_jeonse_ratio d p = some (pyRound1 (d / p * 100)) := by
  simp [calc_jeonse_ratio, not_le.mpr hp]

theorem calc_of_nonpos {p : ℚ} (hp : p ≤ 0) (d : ℚ) :
    calc_jeonse_ratio d p = none := by
  simp [calc_jeonse_ratio, hp]

theorem pyStrip_idem (s : String) : pyStrip (pyStrip s) = pyStrip s := by
  unfold pyStrip
  congr 1
  have hdata : (String.mk (List.rdropWhile isPySpace
      (List.dropWhile isPySpace s.data))).data =
      List.rdropWhile isPySpace (List.dropWhile isPySpace s.data) := rfl
  rw [hdata]
  have hdrop : List.dropWhile isPySpace
      (List.rdropWhile isPySpace (List.dropWhile isPySpace s.data)) =
      List.rdropWhile isPySpace (List.dropWhile isPySpace s.data) := by
    rw [List.dropWhile_eq_self_iff]
    intro hl
    have hpre : List.rdropWhile isPySpace (List.dropWhile isPySpace s.data) <+:
        List.dropWhile isPySpace s.data := List.rdropWhile_prefix _ _
    have hlL : 0 < (List.dropWhile isPySpace s.data).length :=
      lt_of_lt_of_le hl hpre.length_le
    have hnot := List.dropWhile_get_zero_not isPySpace s.data hlL
    simp only [List.get_eq_getElem] at hnot ⊢
    rwa [← hpre.getElem hl] at hnot
  rw [hdrop, List.rdropWhile_idempotent]

theorem buildUrl_of_nonblank (a : String) (h : pyStrip a ≠ "") :
    build_naver_search_url (some a) =
      some ("https://new.land.naver.com/search?sk=" ++ pyQuote (pyStrip a)) := by
  simp [build_naver_search_url, h]

theorem buildUrl_of_blank (a : String) (h : pyStrip a = "") :
    build_naver_search_url (some a) = none := by
  simp [build_naver_search_url, h]

/-! ## Claim theorems -/

/-- C1: `get_risk_level` classifies with strict `<` boundaries: a ratio below
60 is Safe (green), from 60 up to but excluding 80 is Caution (yellow), and
from 80 on (no upper clamp, including above 100) is Danger (red); exactly 60
is Caution and exactly 80 is Danger; a `none` ratio gives the Unknown label
with the neutral-gray color. -/
theorem get_risk_level_boundary_policy :
    (∀ r : ℚ, r < 60 → get_risk_level (some r) = ("안전 영역", "#2ecc71")) ∧
    (∀ r : ℚ, 60 ≤ r → r < 80 → get_risk_level (some r) = ("주의 영역", "#f1c40f")) ∧
    (∀ r : ℚ, 80 ≤ r → get_risk_level (some r) = ("위험 영역", "#e74c3c")) ∧
    get_risk_level (some 59.9) = ("안전 영역", "#2ecc71") ∧
    get_risk_level (some 60) = ("주의 영역", "#f1c40f") ∧
    get_risk_level (some 79.9) = ("주의 영역", "#f1c40f") ∧
    get_risk_level (some 80) = ("위험 영역", "#e74c3c") ∧
    get_risk_level (some 150) = ("위험 영역", "#e74c3c") ∧
    get_risk_level none = ("정보 없음", "#7f8c8d") := by
  refine ⟨fun r h => risk_safe h, fun r h1 h2 => risk_caution h1 h2,
    fun r h => risk_danger h, risk_safe (by norm_num), risk_caution (by norm_num) (by norm_num),
    risk_caution (by norm_num) (by norm_num), risk_danger (by norm_num),
    risk_danger (by norm_num), rfl⟩

/-- Witness for C1: the three quantified bands applied at 59, 70 and 100. -/
theorem get_risk_level_boundary_policy_witness :
    get_risk_level (some 59) = ("안전 영역", "#2ecc71") ∧
    get_risk_level (some 70) = ("주의 영역", "#f1c40f") ∧
    get_risk_level (some 100) = ("위험 영역", "#e74c3c") :=
  ⟨get_risk_level_boundary_policy.1 59 (by norm_num),
   get_risk_level_boundary_policy.2.1 70 (by norm_num) (by norm_num),
   get_risk_level_boundary_policy.2.2.1 100 (by norm_num)⟩

/-- C2: for every positive price, `calc_jeonse_ratio` returns
`round(deposit / price * 100, 1)` (one decimal, round-half-to-even); in
particular `50/100 ↦ 50.0`, `80/100 ↦ 80.0`, `59.99/100 ↦ 60.0`, and a zero
deposit yields `0.0` without any failure. -/
theorem calc_jeonse_ratio_rounding :
    (∀ d p : ℚ, 0 < p → calc_jeonse_ratio d p = some (pyRound1 (d / p * 100))) ∧
    calc_jeonse_ratio 50 100 = some 50 ∧
    calc_jeonse_ratio 80 100 = some 80 ∧
    calc_jeonse_ratio 59.99 100 = some 60 ∧
    (∀ p : ℚ, 0 < p → calc_jeonse_ratio 0 p = some 0) := by
  refine ⟨fun d p hp => calc_of_pos hp d, by with_unfolding_all rfl,
    by with_unfolding_all rfl, by with_unfolding_all rfl, fun p hp => ?_⟩
  rw [calc_of_pos hp 0, zero_div, zero_mul, pyRound1_zero]

/-- Witness for C2: the general form and the zero-deposit form at price 100. -/
theorem calc_jeonse_ratio_rounding_witness :
    calc_jeonse_ratio 321 100 = some (pyRound1 (321 / 100 * 100)) ∧
    calc_jeonse_ratio 0 100 = some 0 :=
  ⟨calc_jeonse_ratio_rounding.1 321 100 (by norm_num),
   calc_jeonse_ratio_rounding.2.2.2.2 100 (by norm_num)⟩

/-- C3: `calc_jeonse_ratio` returns the `none` sentinel exactly when the
price is ≤ 0 (for every deposit, in particular every non-negative one), and
never fails otherwise. -/
theorem calc_jeonse_ratio_none_iff :
    ∀ d p : ℚ, calc_jeonse_ratio d p = none ↔ p ≤ 0 := by
  intro d p
  unfold calc_jeonse_ratio
  split_ifs with h <;> simp [h]

/-- C4: end-to-end composition at deposit 8000, price 10000: ratio 80.0,
Danger label, ring segments `[80, 20]`, center text `"80.0%"`. -/
theorem end_to_end_8000_10000 :
    calc_jeonse_ratio 8000 10000 = some 80 ∧
    get_risk_level (calc_jeonse_ratio 8000 10000) = ("위험 영역", "#e74c3c") ∧
    segmentValues (make_donut_chart (calc_jeonse_ratio 8000 10000) "#e74c3c") = [80, 20] ∧
    (make_donut_chart (calc_jeonse_ratio 8000 10000) "#e74c3c").annots.map GoAnnot.text
      = ["80.0%"] := by
  refine ⟨?_, ?_, ?_, ?_⟩ <;> with_unfolding_all rfl

/-- C5: `make_donut_chart` builds a two-segment ring: segment one is the
ratio in the given color, segment two is `100 − ratio` in fixed light-gray
`#ecf0f1`, hole fraction 0.7, no legend, no slice labels (`textinfo="none"`),
and a centered text element showing the ratio to one decimal place in the
given color; a `none` ratio is replaced by 0, giving segments `[0, 100]`. -/
theorem make_donut_chart_shape :
    ∀ (r : ℚ) (c : String),
      (make_donut_chart (some r) c).data =
        [{ values := [r, 100 - r], hole := 0.7,
           colors := [c, "#ecf0f1"], textinfo := "none" }] ∧
      (make_donut_chart (some r) c).showlegend = false ∧
      (make_donut_chart (some r) c).annots =
        [{ text := fmt1 r ++ "%", x := 1/2, y := 1/2,
           fontSize := 26, fontColor := c, showarrow := false }] ∧
      make_donut_chart none c = make_donut_chart (some 0) c ∧
      segmentValues (make_donut_chart none c) = [0, 100] := by
  intro r c
  refine ⟨rfl, rfl, rfl, rfl, ?_⟩
  with_unfolding_all rfl

/-- C6: for every address whose trimmed form is non-blank,
`build_naver_search_url` returns the fixed template
`https://new.land.naver.com/search?sk=` followed by the percent-encoded
trimmed address; in particular `"Gangnam Apt"` maps to
`https://new.land.naver.com/search?sk=Gangnam%20Apt` (space as `%20`,
case preserved). -/
theorem build_naver_search_url_encodes :
    (∀ a : String, pyStrip a ≠ "" →
      build_naver_search_url (some a) =
        some ("https://new.land.naver.com/search?sk=" ++ pyQuote (pyStrip a))) ∧
    build_naver_search_url (some "Gangnam Apt") =
      some "https://new.land.naver.com/search?sk=Gangnam%20Apt" := by
  refine ⟨fun a h => buildUrl_of_nonblank a h, ?_⟩
  decide

/-- Witness for C6: the quantified part applied at the address "Gangnam Apt". -/
theorem build_naver_search_url_encodes_witness :
    build_naver_search_url (some "Gangnam Apt") =
      some ("https://new.land.naver.com/search?sk=" ++ pyQuote (pyStrip "Gangnam Apt")) :=
  build_naver_search_url_encodes.1 "Gangnam Apt" (by decide)

/-- C7: `build_naver_search_url` first trims its input (building from the
trimmed address gives the same result), and for every input trimming to the
empty string — the empty string, whitespace-only strings, and a missing
(`none`) input — it returns `none` without failing. -/
theorem build_naver_search_url_blank :
    build_naver_search_url none = none ∧
    (∀ a : String, pyStrip a = "" → build_naver_search_url (some a) = none) ∧
    build_naver_search_url (some "") = none ∧
    build_naver_search_url (some "   ") = none ∧
    (∀ a : String, build_naver_search_url (some a) =
      build_naver_search_url (some (pyStrip a))) := by
  refine ⟨by decide, fun a h => buildUrl_of_blank a h, by decide, by decide, fun a => ?_⟩
  simp only [build_naver_search_url, Option.getD_some, pyStrip_idem]

/-- Witness for C7: the blank-trimming part applied to a two-space string. -/
theorem build_naver_search_url_blank_witness :
    build_naver_search_url (some "  ") = none :=
  build_naver_search_url_blank.2.1 "  " (by decide)

/-- C8: `get_risk_level` is total on `Option ℚ` and its value is always one
of exactly four fixed (label, color) pairs. -/
theorem get_risk_level_total_range :
    ∀ ro : Option ℚ,
      get_risk_level ro = ("정보 없음", "#7f8c8d") ∨
      get_risk_level ro = ("안전 영역", "#2ecc71") ∨
      get_risk_level ro = ("주의 영역", "#f1c40f") ∨
      get_risk_level ro = ("위험 영역", "#e74c3c") := by
  intro ro
  match ro with
  | none => exact Or.inl rfl
  | some r =>
    rcases lt_or_le r 60 with h | h
    · exact Or.inr (Or.inl (risk_safe h))
    · rcases lt_or_le r 80 with h2 | h2
      · exact Or.inr (Or.inr (Or.inl (risk_caution h h2)))
      · exact Or.inr (Or.inr (Or.inr (risk_danger h2)))

/-- C9: `calc_jeonse_ratio` does not enforce a non-negative deposit: for any
positive price it returns the rounded percentage even for a negative deposit,
and that negative percentage is then classified Safe by `get_risk_level`. -/
theorem calc_jeonse_ratio_negative_deposit :
    ∀ d p : ℚ, 0 < p →
      calc_jeonse_ratio d p = some (pyRound1 (d / p * 100)) ∧
      (d < 0 → get_risk_level (calc_jeonse_ratio d p) = ("안전 영역", "#2ecc71")) := by
  intro d p hp
  refine ⟨calc_of_pos hp d, fun hd => ?_⟩
  rw [calc_of_pos hp d]
  apply risk_safe
  have hq : d / p * 100 < 0 := by
    have hdp : d / p < 0 := div_neg_of_neg_of_pos hd hp
    linarith
  have hr := pyRound1_nonpos hq
  linarith

/-- Witness for C9: deposit −50 at price 100 is computed, not rejected, and
classified Safe. -/
theorem calc_jeonse_ratio_negative_deposit_witness :
    calc_jeonse_ratio (-50) 100 = some (pyRound1 ((-50) / 100 * 100)) ∧
    get_risk_level (calc_jeonse_ratio (-50) 100) = ("안전 영역", "#2ecc71") :=
  ⟨(calc_jeonse_ratio_negative_deposit (-50) 100 (by norm_num)).1,
   (calc_jeonse_ratio_negative_deposit (-50) 100 (by norm_num)).2 (by norm_num)⟩

/-- C10: for every ratio input (including `none`, replaced by 0, and values
above 100, where the second segment goes negative) the chart's segment list
is `[r', 100 − r']` for the substituted ratio `r'`, so the two segment values
always sum to exactly 100. -/
theorem make_donut_chart_segments_sum :
    ∀ (ro : Option ℚ) (c : String),
      segmentValues (make_donut_chart ro c) = [ro.getD 0, 100 - ro.getD 0] ∧
      (segmentValues (make_donut_chart ro c)).sum = 100 := by
  intro ro c
  refine ⟨rfl, ?_⟩
  simp [segmentValues, make_donut_chart]
